import Mathlib

set_option linter.unusedVariables false

/-!
Shallow embedding of `src/dlls/winex11.drv/vulkan.c` (the winex11 Vulkan
driver shim) and proofs about its behaviour.

Modelling conventions:
* Pointers and opaque handles (`VkInstance`, `Window`, `Display *`, ...) are
  `Nat`; a nullable pointer is an `Option Nat` with `none` for `NULL`.
* `VkResult` values are `Int`, with the numeric codes of the Vulkan headers.
* The `pNext` chain of a `VkInstanceCreateInfo` is the list of the `sType`
  tags of its nodes, in traversal order; an empty chain is `[]` (NULL).
* The destination record of `wine_vk_instance_convert_create_info` is stack
  memory of the caller: the function receives its (arbitrary, possibly
  garbage) initial contents `dst0` and only the fields the C code assigns
  change; the rest keep their initial value.
* Heap behaviour is made explicit: the conversion result records how many
  `heap_alloc` calls were attempted and how many allocated arrays are still
  reachable when the function returns; `heap_alloc` success is an oracle
  parameter `allocOk`.
* Debug output (`FIXME`, `TRACE`, `ERR`) is modelled only where a claim
  mentions it: the conversion records the list of `sType` tags it reports
  for chain nodes.
-/

/-- VkResult: success. -/
def VK_SUCCESS : Int := 0

/-- VkResult: VK_INCOMPLETE (a success code). -/
def VK_INCOMPLETE : Int := 5

/-- VkResult: out of host memory. -/
def VK_ERROR_OUT_OF_HOST_MEMORY : Int := -1

/-- VkResult: requested layer is not present. -/
def VK_ERROR_LAYER_NOT_PRESENT : Int := -6

/-- VkResult: incompatible driver. -/
def VK_ERROR_INCOMPATIBLE_DRIVER : Int := -9

/-- VkResult: VK_ERROR_SURFACE_LOST_KHR, a sample failure code a backend
surface-creation call can return. -/
def VK_ERROR_SURFACE_LOST_KHR : Int := -1000000000

/-- Model of `VkInstanceCreateInfo` (plus the implicit memory it points to).
`pNext` is the chain of `sType` tags of the linked structures;
`ppEnabledLayerNames` and `ppEnabledExtensionNames` are `none` when the C
pointer is `NULL` and `some` the pointed-to array otherwise. -/
structure VkInstanceCreateInfo where
  sType : Nat
  pNext : List Nat
  flags : Nat
  pApplicationInfo : Option Nat
  enabledLayerCount : Nat
  ppEnabledLayerNames : Option (List String)
  enabledExtensionCount : Nat
  ppEnabledExtensionNames : Option (List String)
deriving Repr, DecidableEq

/-- The extension-name substitution of the conversion loop (vulkan.c lines
156-169): `"VK_KHR_win32_surface"` becomes `"VK_KHR_xlib_surface"`, every
other name is passed through unchanged. -/
def substituteExtension (name : String) : String :=
  if name = "VK_KHR_win32_surface" then "VK_KHR_xlib_surface" else name

/-- What `wine_vk_instance_convert_create_info` returns and does: the
`VkResult`, the final contents of the destination record, the `sType` tags
reported by the FIXME loop over the `pNext` chain, the number of `heap_alloc`
calls attempted, and the number of heap arrays allocated and still reachable
at return. -/
structure ConvertResult where
  res : Int
  dst : VkInstanceCreateInfo
  fixmeLog : List Nat
  allocAttempts : Nat
  allocsLive : Nat
deriving Repr, DecidableEq

/-- Model of `wine_vk_instance_convert_create_info` (vulkan.c lines 112-175).
`allocOk` is the heap oracle: whether the single `heap_alloc` (if reached)
succeeds. `dst0` is the initial (uninitialized) contents of the caller's
destination record. -/
def wine_vk_instance_convert_create_info (allocOk : Bool)
    (src dst0 : VkInstanceCreateInfo) : ConvertResult :=
  let dst1 : VkInstanceCreateInfo :=
    { dst0 with sType := src.sType, flags := src.flags,
                pApplicationInfo := src.pApplicationInfo }
  let log : List Nat := src.pNext
  let dst2 : VkInstanceCreateInfo := { dst1 with pNext := [] }
  let dst3 : VkInstanceCreateInfo :=
    { dst2 with enabledLayerCount := 0, ppEnabledLayerNames := none }
  if 0 < src.enabledExtensionCount then
    if allocOk then
      let enabled_extensions : List String :=
        ((src.ppEnabledExtensionNames.getD []).take src.enabledExtensionCount).map
          substituteExtension
      let dst4 : VkInstanceCreateInfo :=
        { dst3 with ppEnabledExtensionNames := some enabled_extensions,
                    enabledExtensionCount := src.enabledExtensionCount }
      { res := VK_SUCCESS, dst := dst4, fixmeLog := log,
        allocAttempts := 1, allocsLive := 1 }
    else
      { res := VK_ERROR_OUT_OF_HOST_MEMORY, dst := dst3, fixmeLog := log,
        allocAttempts := 1, allocsLive := 0 }
  else
    { res := VK_SUCCESS,
      dst := { dst3 with enabledExtensionCount := src.enabledExtensionCount },
      fixmeLog := log, allocAttempts := 0, allocsLive := 0 }

/-- Environment of `wine_vk_init`: what `wine_dlopen(SONAME_LIBVULKAN, ...)`
returns (`none` = NULL) and what `wine_dlsym(vulkan_handle, name, ...)`
returns for each symbol name (`none` = NULL). -/
structure VkLibEnv where
  dlopenResult : Option Nat
  dlsymResult : String → Option Nat

/-- The two static variables of `wine_vk_init` (vulkan.c lines 88-89). -/
structure VkInitState where
  init_done : Bool
  vulkan_handle : Option Nat
deriving Repr, DecidableEq

/-- The static state at process start: `init_done = FALSE`, handle NULL. -/
def initialVkState : VkInitState :=
  { init_done := false, vulkan_handle := none }

/-- The seven symbols `wine_vk_init` resolves with LOAD_FUNCPTR, in source
order (vulkan.c lines 97-103). -/
def requiredVulkanSymbols : List String :=
  ["vkCreateInstance", "vkCreateXlibSurfaceKHR", "vkDestroyInstance",
   "vkDestroySurfaceKHR", "vkGetDeviceProcAddr", "vkGetInstanceProcAddr",
   "vkGetPhysicalDeviceXlibPresentationSupportKHR"]

/-- Model of `wine_vk_init` (vulkan.c lines 86-107): returns the BOOL result
together with the updated static state. On re-entry with `init_done` set it
returns `vulkan_handle != NULL`; on first entry it sets `init_done`, performs
the dlopen, and resolves the seven required symbols, failing on the first one
that is missing (`List.all` short-circuits exactly as the LOAD_FUNCPTR early
returns do). -/
def wine_vk_init (env : VkLibEnv) (s : VkInitState) : Bool × VkInitState :=
  if s.init_done then (s.vulkan_handle.isSome, s)
  else
    match env.dlopenResult with
    | none => (false, { init_done := true, vulkan_handle := none })
    | some h =>
      let s' : VkInitState := { init_done := true, vulkan_handle := some h }
      (requiredVulkanSymbols.all (fun f => (env.dlsymResult f).isSome), s')

/-- Model of `struct wine_vk_surface` (vulkan.c lines 57-61). -/
structure wine_vk_surface where
  window : Nat
  surface : Nat
deriving Repr, DecidableEq

/-- The two heap objects `X11DRV_vkCreateWin32SurfaceKHR` can pass to
`heap_free`: the `wine_vk_surface` it allocates with `heap_alloc`, and the
address of the caller's `VkSurfaceKHR *surface` output parameter (which is
not a heap allocation of this function at all). -/
inductive HeapPtr where
  | x11SurfacePtr
  | surfaceParamPtr
deriving Repr, DecidableEq

/-- Environment of one `X11DRV_vkCreateWin32SurfaceKHR` call: the results of
`GetAncestor(create_info->hwnd, GA_PARENT)` and `GetDesktopWindow()`, what
`create_client_window` returns (`none` = 0), whether the `heap_alloc`
succeeds, and the result and surface handle produced by the backend
`pvkCreateXlibSurfaceKHR` call. -/
structure SurfaceEnv where
  ancestorParent : Nat
  desktopWindow : Nat
  clientWindow : Option Nat
  allocOk : Bool
  backendResult : Int
  backendSurface : Nat
deriving Repr, DecidableEq

/-- Observable outcome of `X11DRV_vkCreateWin32SurfaceKHR`: the `VkResult`,
whether the backend `pvkCreateXlibSurfaceKHR` was invoked, how many
`heap_alloc` calls were attempted, which heap objects were allocated and
which pointers were passed to `heap_free`, and the value written through the
caller's `surface` output pointer (`none` = left unwritten). -/
structure SurfaceOutcome where
  res : Int
  backendCalled : Bool
  heapAllocAttempts : Nat
  allocated : List HeapPtr
  freed : List HeapPtr
  surfaceOut : Option wine_vk_surface
deriving Repr, DecidableEq

/-- Model of `X11DRV_vkCreateWin32SurfaceKHR` (vulkan.c lines 220-265),
following the source path by path: reject a window whose parent is not the
desktop window; fail when `create_client_window` or `heap_alloc` fails; call
the backend; on backend failure execute `heap_free(surface)` — the caller's
output-parameter pointer, not the allocated `x11_surface` — and propagate the
backend result; on success store the surface handle and write the caller's
output. -/
def X11DRV_vkCreateWin32SurfaceKHR (env : SurfaceEnv) : SurfaceOutcome :=
  if env.ancestorParent ≠ env.desktopWindow then
    { res := VK_ERROR_INCOMPATIBLE_DRIVER, backendCalled := false,
      heapAllocAttempts := 0, allocated := [], freed := [], surfaceOut := none }
  else
    match env.clientWindow with
    | none =>
      { res := VK_ERROR_OUT_OF_HOST_MEMORY, backendCalled := false,
        heapAllocAttempts := 0, allocated := [], freed := [], surfaceOut := none }
    | some win =>
      if env.allocOk = false then
        { res := VK_ERROR_OUT_OF_HOST_MEMORY, backendCalled := false,
          heapAllocAttempts := 1, allocated := [], freed := [], surfaceOut := none }
      else if env.backendResult ≠ VK_SUCCESS then
        { res := env.backendResult, backendCalled := true,
          heapAllocAttempts := 1, allocated := [HeapPtr.x11SurfacePtr],
          freed := [HeapPtr.surfaceParamPtr], surfaceOut := none }
      else
        { res := VK_SUCCESS, backendCalled := true,
          heapAllocAttempts := 1, allocated := [HeapPtr.x11SurfacePtr],
          freed := [],
          surfaceOut := some { window := win, surface := env.backendSurface } }

/-- Stub `X11DRV_vkAcquireNextImageKHR` (vulkan.c lines 177-185): logs and
returns `VK_ERROR_OUT_OF_HOST_MEMORY` for every input. -/
def X11DRV_vkAcquireNextImageKHR (device swapchain timeoutNs semaphore fence
    index : Nat) : Int :=
  VK_ERROR_OUT_OF_HOST_MEMORY

/-- Stub `X11DRV_vkCreateSwapchainKHR` (vulkan.c lines 212-218). -/
def X11DRV_vkCreateSwapchainKHR (device create_info allocator swapchain : Nat) :
    Int :=
  VK_ERROR_OUT_OF_HOST_MEMORY

/-- Stub `X11DRV_vkDestroySwapchainKHR` (vulkan.c lines 291-295): the C
function has return type `void`; it logs a FIXME and returns nothing. -/
def X11DRV_vkDestroySwapchainKHR (device swapchain allocator : Nat) : Unit :=
  ()

/-- Stub `X11DRV_vkGetPhysicalDeviceSurfaceCapabilitiesKHR` (vulkan.c lines
358-363). -/
def X11DRV_vkGetPhysicalDeviceSurfaceCapabilitiesKHR
    (phys_dev surface capabilities : Nat) : Int :=
  VK_ERROR_OUT_OF_HOST_MEMORY

/-- Stub `X11DRV_vkGetPhysicalDeviceSurfaceFormatsKHR` (vulkan.c lines
365-370). -/
def X11DRV_vkGetPhysicalDeviceSurfaceFormatsKHR
    (phys_dev surface count formats : Nat) : Int :=
  VK_ERROR_OUT_OF_HOST_MEMORY

/-- Stub `X11DRV_vkGetPhysicalDeviceSurfacePresentModesKHR` (vulkan.c lines
372-377). -/
def X11DRV_vkGetPhysicalDeviceSurfacePresentModesKHR
    (phys_dev surface count modes : Nat) : Int :=
  VK_ERROR_OUT_OF_HOST_MEMORY

/-- Stub `X11DRV_vkGetPhysicalDeviceSurfaceSupportKHR` (vulkan.c lines
379-384). -/
def X11DRV_vkGetPhysicalDeviceSurfaceSupportKHR
    (phys_dev index surface supported : Nat) : Int :=
  VK_ERROR_OUT_OF_HOST_MEMORY

/-- Stub `X11DRV_vkGetSwapchainImagesKHR` (vulkan.c lines 395-400). -/
def X11DRV_vkGetSwapchainImagesKHR (device swapchain count images : Nat) :
    Int :=
  VK_ERROR_OUT_OF_HOST_MEMORY

/-- Stub `X11DRV_vkQueuePresentKHR` (vulkan.c lines 402-406). -/
def X11DRV_vkQueuePresentKHR (queue present_info : Nat) : Int :=
  VK_ERROR_OUT_OF_HOST_MEMORY

/-- The nine entries of the driver's function table whose C implementation is
a FIXME stub (no forwarding to the backend). -/
inductive UnimplementedEntry where
  | vkAcquireNextImageKHR
  | vkCreateSwapchainKHR
  | vkDestroySwapchainKHR
  | vkGetPhysicalDeviceSurfaceCapabilitiesKHR
  | vkGetPhysicalDeviceSurfaceFormatsKHR
  | vkGetPhysicalDeviceSurfacePresentModesKHR
  | vkGetPhysicalDeviceSurfaceSupportKHR
  | vkGetSwapchainImagesKHR
  | vkQueuePresentKHR
deriving Repr, DecidableEq

/-- The `VkResult` code a stub entry returns, read off the stub functions:
`some` the value of the stub (each stub is a constant function, so its value
at zero arguments determines it everywhere; the table theorem proves the
constancy), and `none` for `vkDestroySwapchainKHR`, whose C return type is
`void`, so it returns no result code at all. -/
def stubResultCode : UnimplementedEntry → Option Int
  | .vkAcquireNextImageKHR => some (X11DRV_vkAcquireNextImageKHR 0 0 0 0 0 0)
  | .vkCreateSwapchainKHR => some (X11DRV_vkCreateSwapchainKHR 0 0 0 0)
  | .vkDestroySwapchainKHR => none
  | .vkGetPhysicalDeviceSurfaceCapabilitiesKHR =>
      some (X11DRV_vkGetPhysicalDeviceSurfaceCapabilitiesKHR 0 0 0)
  | .vkGetPhysicalDeviceSurfaceFormatsKHR =>
      some (X11DRV_vkGetPhysicalDeviceSurfaceFormatsKHR 0 0 0 0)
  | .vkGetPhysicalDeviceSurfacePresentModesKHR =>
      some (X11DRV_vkGetPhysicalDeviceSurfacePresentModesKHR 0 0 0 0)
  | .vkGetPhysicalDeviceSurfaceSupportKHR =>
      some (X11DRV_vkGetPhysicalDeviceSurfaceSupportKHR 0 0 0 0)
  | .vkGetSwapchainImagesKHR => some (X11DRV_vkGetSwapchainImagesKHR 0 0 0 0)
  | .vkQueuePresentKHR => some (X11DRV_vkQueuePresentKHR 0 0)

/-- Outcome of `X11DRV_vkEnumerateInstanceExtensionProperties`: the result
code, the count written back (unchanged when the code does not write it),
and the extension properties copied into the caller's array. -/
structure EnumExtOutcome where
  res : Int
  countOut : Nat
  copied : List (String × Nat)
deriving Repr, DecidableEq

/-- The `winex11_vk_instance_extensions` array (vulkan.c lines 81-84). -/
def winex11_vk_instance_extensions : List (String × Nat) :=
  [("VK_KHR_surface", 1), ("VK_KHR_win32_surface", 1)]

/-- Model of `X11DRV_vkEnumerateInstanceExtensionProperties` (vulkan.c lines
297-344). `layer_name` is the (nullable) layer-name pointer, `countIn` the
value at `*count`, `propertiesNull` whether the properties pointer is NULL. -/
def X11DRV_vkEnumerateInstanceExtensionProperties (layer_name : Option String)
    (countIn : Nat) (propertiesNull : Bool) : EnumExtOutcome :=
  if layer_name.isSome then
    { res := VK_ERROR_LAYER_NOT_PRESENT, countOut := countIn, copied := [] }
  else if propertiesNull then
    { res := VK_SUCCESS, countOut := winex11_vk_instance_extensions.length,
      copied := [] }
  else if countIn < winex11_vk_instance_extensions.length then
    { res := VK_INCOMPLETE, countOut := countIn,
      copied := winex11_vk_instance_extensions.take countIn }
  else
    { res := VK_SUCCESS, countOut := countIn,
      copied := winex11_vk_instance_extensions }

/-- Outcome of `X11DRV_vkCreateInstance` (vulkan.c lines 187-210): result
code, whether `pvkCreateInstance` was invoked, and whether the converted
extension array was freed after the backend call. -/
structure CreateInstanceOutcome where
  res : Int
  backendCalled : Bool
  extensionArrayFreed : Bool
deriving Repr, DecidableEq

/-- Model of `X11DRV_vkCreateInstance` (vulkan.c lines 187-210): convert the
create info; on conversion failure return its result without calling the
backend; otherwise call the backend, free `ppEnabledExtensionNames` of the
host record when it is non-NULL, and return the backend result. -/
def X11DRV_vkCreateInstance (convertAllocOk : Bool) (backendResult : Int)
    (create_info dst0 : VkInstanceCreateInfo) : CreateInstanceOutcome :=
  let conv := wine_vk_instance_convert_create_info convertAllocOk create_info dst0
  if conv.res ≠ VK_SUCCESS then
    { res := conv.res, backendCalled := false, extensionArrayFreed := false }
  else
    { res := backendResult, backendCalled := true,
      extensionArrayFreed := conv.dst.ppEnabledExtensionNames.isSome }

/-- Model of `X11DRV_vkDestroyInstance` (vulkan.c lines 267-275): forwards to
`pvkDestroyInstance` with a NULL allocator; the value is the argument pair of
that backend call. -/
def X11DRV_vkDestroyInstance (inst : Nat) (allocator : Option Nat) :
    Nat × Option Nat :=
  (inst, none)

/-- Model of `X11DRV_vkDestroySurfaceKHR` (vulkan.c lines 277-289): calls
`pvkDestroySurfaceKHR(instance, x11_surface->surface, NULL)` and frees the
`wine_vk_surface`; the value is the backend call's argument pair together
with the freed record. -/
def X11DRV_vkDestroySurfaceKHR (inst : Nat) (x11_surface : wine_vk_surface)
    (allocator : Option Nat) : (Nat × Nat) × wine_vk_surface :=
  ((inst, x11_surface.surface), x11_surface)

/-- Model of `X11DRV_vkGetDeviceProcAddr` (vulkan.c lines 346-350): a pure
forward to `pvkGetDeviceProcAddr`. -/
def X11DRV_vkGetDeviceProcAddr (pvk : Nat → String → Option Nat)
    (device : Nat) (name : String) : Option Nat :=
  pvk device name

/-- Model of `X11DRV_vkGetInstanceProcAddr` (vulkan.c lines 352-356): a pure
forward to `pvkGetInstanceProcAddr`. -/
def X11DRV_vkGetInstanceProcAddr (pvk : Nat → String → Option Nat)
    (inst : Nat) (name : String) : Option Nat :=
  pvk inst name

/-- Model of `X11DRV_vkGetPhysicalDeviceWin32PresentationSupportKHR`
(vulkan.c lines 386-393): forwards to
`pvkGetPhysicalDeviceXlibPresentationSupportKHR` with the gdi display and the
default visual id. -/
def X11DRV_vkGetPhysicalDeviceWin32PresentationSupportKHR
    (pvk : Nat → Nat → Nat → Nat → Bool) (gdi_display visualid : Nat)
    (phys_dev index : Nat) : Bool :=
  pvk phys_dev index gdi_display visualid

/-- Model of `struct vulkan_funcs` (vulkan.c lines 409-428): one field per
driver entry point, `Option` of the model of the corresponding
`X11DRV_vk*` function, `none` standing for a NULL pointer in the table. -/
structure vulkan_funcs_t where
  p_vkAcquireNextImageKHR : Option (Nat → Nat → Nat → Nat → Nat → Nat → Int)
  p_vkCreateInstance :
    Option (Bool → Int → VkInstanceCreateInfo → VkInstanceCreateInfo →
            CreateInstanceOutcome)
  p_vkCreateSwapchainKHR : Option (Nat → Nat → Nat → Nat → Int)
  p_vkCreateWin32SurfaceKHR : Option (SurfaceEnv → SurfaceOutcome)
  p_vkDestroyInstance : Option (Nat → Option Nat → Nat × Option Nat)
  p_vkDestroySurfaceKHR :
    Option (Nat → wine_vk_surface → Option Nat → (Nat × Nat) × wine_vk_surface)
  p_vkDestroySwapchainKHR : Option (Nat → Nat → Nat → Unit)
  p_vkEnumerateInstanceExtensionProperties :
    Option (Option String → Nat → Bool → EnumExtOutcome)
  p_vkGetDeviceProcAddr :
    Option ((Nat → String → Option Nat) → Nat → String → Option Nat)
  p_vkGetInstanceProcAddr :
    Option ((Nat → String → Option Nat) → Nat → String → Option Nat)
  p_vkGetPhysicalDeviceSurfaceCapabilitiesKHR : Option (Nat → Nat → Nat → Int)
  p_vkGetPhysicalDeviceSurfaceFormatsKHR : Option (Nat → Nat → Nat → Nat → Int)
  p_vkGetPhysicalDeviceSurfacePresentModesKHR :
    Option (Nat → Nat → Nat → Nat → Int)
  p_vkGetPhysicalDeviceSurfaceSupportKHR : Option (Nat → Nat → Nat → Nat → Int)
  p_vkGetPhysicalDeviceWin32PresentationSupportKHR :
    Option ((Nat → Nat → Nat → Nat → Bool) → Nat → Nat → Nat → Nat → Bool)
  p_vkGetSwapchainImagesKHR : Option (Nat → Nat → Nat → Nat → Int)
  p_vkQueuePresentKHR : Option (Nat → Nat → Int)

/-- The driver's function table `vulkan_funcs` (vulkan.c lines 409-428):
every slot is filled with the corresponding `X11DRV_vk*` implementation. -/
def vulkan_funcs : vulkan_funcs_t :=
  { p_vkAcquireNextImageKHR := some X11DRV_vkAcquireNextImageKHR,
    p_vkCreateInstance := some X11DRV_vkCreateInstance,
    p_vkCreateSwapchainKHR := some X11DRV_vkCreateSwapchainKHR,
    p_vkCreateWin32SurfaceKHR := some X11DRV_vkCreateWin32SurfaceKHR,
    p_vkDestroyInstance := some X11DRV_vkDestroyInstance,
    p_vkDestroySurfaceKHR := some X11DRV_vkDestroySurfaceKHR,
    p_vkDestroySwapchainKHR := some X11DRV_vkDestroySwapchainKHR,
    p_vkEnumerateInstanceExtensionProperties :=
      some X11DRV_vkEnumerateInstanceExtensionProperties,
    p_vkGetDeviceProcAddr := some X11DRV_vkGetDeviceProcAddr,
    p_vkGetInstanceProcAddr := some X11DRV_vkGetInstanceProcAddr,
    p_vkGetPhysicalDeviceSurfaceCapabilitiesKHR :=
      some X11DRV_vkGetPhysicalDeviceSurfaceCapabilitiesKHR,
    p_vkGetPhysicalDeviceSurfaceFormatsKHR :=
      some X11DRV_vkGetPhysicalDeviceSurfaceFormatsKHR,
    p_vkGetPhysicalDeviceSurfacePresentModesKHR :=
      some X11DRV_vkGetPhysicalDeviceSurfacePresentModesKHR,
    p_vkGetPhysicalDeviceSurfaceSupportKHR :=
      some X11DRV_vkGetPhysicalDeviceSurfaceSupportKHR,
    p_vkGetPhysicalDeviceWin32PresentationSupportKHR :=
      some X11DRV_vkGetPhysicalDeviceWin32PresentationSupportKHR,
    p_vkGetSwapchainImagesKHR := some X11DRV_vkGetSwapchainImagesKHR,
    p_vkQueuePresentKHR := some X11DRV_vkQueuePresentKHR }

/-- Model of `get_vulkan_driver` (vulkan.c lines 430-442). `driverVersion` is
the compiled `WINE_VULKAN_DRIVER_VERSION` (defined in a header outside this
repository, so kept as a parameter). Returns the (nullable) pointer to the
function table together with the updated `wine_vk_init` static state. -/
def get_vulkan_driver (driverVersion : Nat) (env : VkLibEnv) (s : VkInitState)
    (version : Nat) : Option vulkan_funcs_t × VkInitState :=
  if version ≠ driverVersion then (none, s)
  else
    let r := wine_vk_init env s
    ((if r.1 then some vulkan_funcs else none), r.2)

/-! Concrete sample inputs used by the witness theorems. -/

/-- A sample extension-name list with the win32 surface name appearing twice
(duplicates) and an unrelated name between the copies. -/
def sampleNames : List String :=
  ["VK_KHR_win32_surface", "VK_EXT_debug_report", "VK_KHR_win32_surface"]

/-- A sample source `VkInstanceCreateInfo` with three enabled extensions, a
two-node `pNext` chain and a non-empty layer list. -/
def sampleSrc : VkInstanceCreateInfo :=
  { sType := 1, pNext := [1000011000, 37], flags := 0,
    pApplicationInfo := some 42, enabledLayerCount := 2,
    ppEnabledLayerNames := some ["VK_LAYER_a", "VK_LAYER_b"],
    enabledExtensionCount := 3, ppEnabledExtensionNames := some sampleNames }

/-- A sample source `VkInstanceCreateInfo` with zero enabled extensions. -/
def sampleSrcZero : VkInstanceCreateInfo :=
  { sampleSrc with enabledExtensionCount := 0, ppEnabledExtensionNames := none }

/-- Arbitrary garbage standing for the uninitialized destination record on
the caller's stack. -/
def garbageDst : VkInstanceCreateInfo :=
  { sType := 99, pNext := [7], flags := 13, pApplicationInfo := some 5,
    enabledLayerCount := 4, ppEnabledLayerNames := some ["junk"],
    enabledExtensionCount := 11, ppEnabledExtensionNames := some ["stale"] }

/-! Theorems settling the claims. -/

/-- C1: for a source create info with `enabledExtensionCount > 0` whose
extension array has exactly that many entries, when the allocation succeeds
the conversion returns `VK_SUCCESS`, records the output count equal to the
input count, and produces an output array of exactly the input's length in
which the entry at every index `i` is `"VK_KHR_xlib_surface"` when the input
entry at `i` is `"VK_KHR_win32_surface"` and is the identical input string
otherwise (order and duplicate multiplicity preserved index by index). -/
theorem convert_substitutes_win32_surface (src dst0 : VkInstanceCreateInfo)
    (names : List String)
    (hnames : src.ppEnabledExtensionNames = some names)
    (hlen : names.length = src.enabledExtensionCount)
    (hpos : 0 < src.enabledExtensionCount) :
    (wine_vk_instance_convert_create_info true src dst0).res = VK_SUCCESS ∧
    (wine_vk_instance_convert_create_info true src dst0).dst.enabledExtensionCount
      = src.enabledExtensionCount ∧
    ∃ out : List String,
      (wine_vk_instance_convert_create_info true src dst0).dst.ppEnabledExtensionNames
        = some out ∧
      out.length = names.length ∧
      ∀ i : Nat, i < names.length →
        (names[i]? = some "VK_KHR_win32_surface" →
          out[i]? = some "VK_KHR_xlib_surface") ∧
        (∀ s : String, names[i]? = some s → s ≠ "VK_KHR_win32_surface" →
          out[i]? = some s) := by
  have htake : names.take src.enabledExtensionCount = names := by
    rw [← hlen, List.take_length]
  refine ⟨?_, ?_, names.map substituteExtension, ?_, ?_, ?_⟩
  · simp [wine_vk_instance_convert_create_info, hpos]
  · simp [wine_vk_instance_convert_create_info, hpos]
  · simp [wine_vk_instance_convert_create_info, hpos, hnames, htake]
  · simp
  · intro i hi
    constructor
    · intro hwin
      simp [List.getElem?_map, hwin, substituteExtension]
    · intro s hs hne
      simp [List.getElem?_map, hs, substituteExtension, hne]

/-- C1 witness: the theorem applied to the concrete sample input with three
extensions, two of them the win32 surface name. -/
theorem convert_substitutes_win32_surface_witness :
    sampleSrc.ppEnabledExtensionNames = some sampleNames ∧
    sampleNames.length = sampleSrc.enabledExtensionCount ∧
    0 < sampleSrc.enabledExtensionCount ∧
    ((wine_vk_instance_convert_create_info true sampleSrc garbageDst).res
       = VK_SUCCESS ∧
     (wine_vk_instance_convert_create_info true sampleSrc
        garbageDst).dst.enabledExtensionCount
       = sampleSrc.enabledExtensionCount ∧
     ∃ out : List String,
       (wine_vk_instance_convert_create_info true sampleSrc
          garbageDst).dst.ppEnabledExtensionNames = some out ∧
       out.length = sampleNames.length ∧
       ∀ i : Nat, i < sampleNames.length →
         (sampleNames[i]? = some "VK_KHR_win32_surface" →
           out[i]? = some "VK_KHR_xlib_surface") ∧
         (∀ s : String, sampleNames[i]? = some s →
           s ≠ "VK_KHR_win32_surface" → out[i]? = some s)) :=
  ⟨by decide, by decide, by decide,
   convert_substitutes_win32_surface sampleSrc garbageDst sampleNames
     (by decide) (by decide) (by decide)⟩

/-- C2: for a source create info with `enabledExtensionCount == 0` the
conversion returns `VK_SUCCESS` with output count zero, attempts no heap
allocation, leaves no allocated array, and does not install any array into
the destination's `ppEnabledExtensionNames` field (it keeps its prior
contents). -/
theorem convert_zero_extension_count (allocOk : Bool)
    (src dst0 : VkInstanceCreateInfo)
    (hzero : src.enabledExtensionCount = 0) :
    (wine_vk_instance_convert_create_info allocOk src dst0).res = VK_SUCCESS ∧
    (wine_vk_instance_convert_create_info allocOk src dst0).dst.enabledExtensionCount
      = 0 ∧
    (wine_vk_instance_convert_create_info allocOk src dst0).allocAttempts = 0 ∧
    (wine_vk_instance_convert_create_info allocOk src dst0).allocsLive = 0 ∧
    (wine_vk_instance_convert_create_info allocOk src dst0).dst.ppEnabledExtensionNames
      = dst0.ppEnabledExtensionNames := by
  simp [wine_vk_instance_convert_create_info, hzero]

/-- C2 witness: the theorem applied to the concrete zero-extension sample. -/
theorem convert_zero_extension_count_witness :
    sampleSrcZero.enabledExtensionCount = 0 ∧
    ((wine_vk_instance_convert_create_info true sampleSrcZero garbageDst).res
       = VK_SUCCESS ∧
     (wine_vk_instance_convert_create_info true sampleSrcZero
        garbageDst).dst.enabledExtensionCount = 0 ∧
     (wine_vk_instance_convert_create_info true sampleSrcZero
        garbageDst).allocAttempts = 0 ∧
     (wine_vk_instance_convert_create_info true sampleSrcZero
        garbageDst).allocsLive = 0 ∧
     (wine_vk_instance_convert_create_info true sampleSrcZero
        garbageDst).dst.ppEnabledExtensionNames
       = garbageDst.ppEnabledExtensionNames) :=
  ⟨by decide,
   convert_zero_extension_count true sampleSrcZero garbageDst (by decide)⟩

/-- C3: for every source create info and heap oracle, the conversion sets the
output `pNext` to null, reports in the FIXME loop exactly the `sType` tag of
each chain node in order, and its result code does not depend on the chain:
replacing the chain by any other chain leaves the result unchanged. -/
theorem convert_drops_pnext_chain (allocOk : Bool)
    (src dst0 : VkInstanceCreateInfo) :
    (wine_vk_instance_convert_create_info allocOk src dst0).dst.pNext = [] ∧
    (wine_vk_instance_convert_create_info allocOk src dst0).fixmeLog
      = src.pNext ∧
    ∀ chain : List Nat,
      (wine_vk_instance_convert_create_info allocOk
        { src with pNext := chain } dst0).res
        = (wine_vk_instance_convert_create_info allocOk src dst0).res := by
  refine ⟨?_, ?_, ?_⟩
  · by_cases hpos : 0 < src.enabledExtensionCount <;>
      cases allocOk <;>
      simp [wine_vk_instance_convert_create_info, hpos]
  · by_cases hpos : 0 < src.enabledExtensionCount <;>
      cases allocOk <;>
      simp [wine_vk_instance_convert_create_info, hpos]
  · intro chain
    by_cases hpos : 0 < src.enabledExtensionCount <;>
      cases allocOk <;>
      simp [wine_vk_instance_convert_create_info, hpos]

/-- C4: for every source create info (whatever its layer list) and heap
oracle, the conversion sets the output's `enabledLayerCount` to zero and its
`ppEnabledLayerNames` to null. -/
theorem convert_clears_layers (allocOk : Bool)
    (src dst0 : VkInstanceCreateInfo) :
    (wine_vk_instance_convert_create_info allocOk src dst0).dst.enabledLayerCount
      = 0 ∧
    (wine_vk_instance_convert_create_info allocOk src dst0).dst.ppEnabledLayerNames
      = none := by
  by_cases hpos : 0 < src.enabledExtensionCount <;>
    cases allocOk <;>
    simp [wine_vk_instance_convert_create_info, hpos]

/-- C5: the conversion attempts exactly one heap allocation when the input
count is positive and none otherwise (so at most one in every case); an
allocated array is live at return exactly when the count is positive and the
allocation succeeded (so a failed allocation leaves no allocated array
reachable); the result is `VK_ERROR_OUT_OF_HOST_MEMORY` exactly when the
count is positive and the allocation failed and `VK_SUCCESS` in every other
case; and on allocation failure the destination's extension-array field is
not touched. -/
theorem convert_allocation_discipline (allocOk : Bool)
    (src dst0 : VkInstanceCreateInfo) :
    ((wine_vk_instance_convert_create_info allocOk src dst0).allocAttempts
       = if 0 < src.enabledExtensionCount then 1 else 0) ∧
    (wine_vk_instance_convert_create_info allocOk src dst0).allocAttempts ≤ 1 ∧
    ((wine_vk_instance_convert_create_info allocOk src dst0).allocsLive
       = if 0 < src.enabledExtensionCount ∧ allocOk = true then 1 else 0) ∧
    ((wine_vk_instance_convert_create_info allocOk src dst0).res
       = if 0 < src.enabledExtensionCount ∧ allocOk = false
         then VK_ERROR_OUT_OF_HOST_MEMORY else VK_SUCCESS) ∧
    (allocOk = false →
      (wine_vk_instance_convert_create_info allocOk src dst0).dst.ppEnabledExtensionNames
        = dst0.ppEnabledExtensionNames) := by
  by_cases hpos : 0 < src.enabledExtensionCount <;>
    cases allocOk <;>
    simp [wine_vk_instance_convert_create_info, hpos]

/-- A library environment in which the dlopen succeeds but the first required
symbol, `vkCreateInstance`, does not resolve. -/
def symbolFailureEnv : VkLibEnv :=
  { dlopenResult := some 1,
    dlsymResult := fun f => if f = "vkCreateInstance" then none else some 2 }

/-- C6 failing input: when the backend library opens but a required symbol is
missing, the first call to `get_vulkan_driver` with the matching version
returns null, but the failure is not cached: `wine_vk_init` then has
`init_done` set with a non-NULL `vulkan_handle`, so the second call returns
`TRUE` and `get_vulkan_driver` hands out the function table (whose backend
pointers were never resolved) instead of null. -/
theorem vk_init_symbol_failure_not_cached :
    (wine_vk_init symbolFailureEnv initialVkState).1 = false ∧
    (get_vulkan_driver 4 symbolFailureEnv initialVkState 4).1.isSome = false ∧
    (wine_vk_init symbolFailureEnv
      (wine_vk_init symbolFailureEnv initialVkState).2).1 = true ∧
    (get_vulkan_driver 4 symbolFailureEnv
      (get_vulkan_driver 4 symbolFailureEnv initialVkState 4).2 4).1
      = some vulkan_funcs := by
  refine ⟨by decide, by decide, by decide, ?_⟩
  rfl

/-- C7: whenever the target window's parent is not the desktop window,
`X11DRV_vkCreateWin32SurfaceKHR` returns `VK_ERROR_INCOMPATIBLE_DRIVER`
without invoking the backend surface-creation entry point and without
attempting or performing any heap allocation. -/
theorem createWin32Surface_rejects_child_window (env : SurfaceEnv)
    (h : env.ancestorParent ≠ env.desktopWindow) :
    (X11DRV_vkCreateWin32SurfaceKHR env).res = VK_ERROR_INCOMPATIBLE_DRIVER ∧
    (X11DRV_vkCreateWin32SurfaceKHR env).backendCalled = false ∧
    (X11DRV_vkCreateWin32SurfaceKHR env).heapAllocAttempts = 0 ∧
    (X11DRV_vkCreateWin32SurfaceKHR env).allocated = [] := by
  simp [X11DRV_vkCreateWin32SurfaceKHR, h]

/-- A call environment whose window has a non-desktop parent. -/
def childWindowEnv : SurfaceEnv :=
  { ancestorParent := 5, desktopWindow := 1, clientWindow := some 7,
    allocOk := true, backendResult := 0, backendSurface := 3 }

/-- C7 witness: the theorem applied to the concrete child-window call. -/
theorem createWin32Surface_rejects_child_window_witness :
    childWindowEnv.ancestorParent ≠ childWindowEnv.desktopWindow ∧
    ((X11DRV_vkCreateWin32SurfaceKHR childWindowEnv).res
       = VK_ERROR_INCOMPATIBLE_DRIVER ∧
     (X11DRV_vkCreateWin32SurfaceKHR childWindowEnv).backendCalled = false ∧
     (X11DRV_vkCreateWin32SurfaceKHR childWindowEnv).heapAllocAttempts = 0 ∧
     (X11DRV_vkCreateWin32SurfaceKHR childWindowEnv).allocated = []) :=
  ⟨by decide, createWin32Surface_rejects_child_window childWindowEnv (by decide)⟩

/-- C8: `get_vulkan_driver` returns null whenever the requested version
differs from the compiled driver version; it returns precisely the fixed
function-pointer table when the version matches and `wine_vk_init` reports
success; and it never returns anything other than null or that fixed table. -/
theorem get_vulkan_driver_version_gate (driverVersion version : Nat)
    (env : VkLibEnv) (s : VkInitState) :
    (version ≠ driverVersion →
      (get_vulkan_driver driverVersion env s version).1 = none) ∧
    ((get_vulkan_driver driverVersion env s version).1 = some vulkan_funcs
       ↔ version = driverVersion ∧ (wine_vk_init env s).1 = true) ∧
    ((get_vulkan_driver driverVersion env s version).1 = none ∨
      (get_vulkan_driver driverVersion env s version).1 = some vulkan_funcs) := by
  unfold get_vulkan_driver
  by_cases hv : version = driverVersion
  · by_cases hi : (wine_vk_init env s).1 = true <;> simp [hv, hi]
  · simp [hv]

/-- C9 counterexample: `vkDestroySwapchainKHR` is an unimplemented entry, yet
it does not return `VK_ERROR_OUT_OF_HOST_MEMORY`: its C return type is
`void`, so it returns no result code at all. -/
theorem destroySwapchain_returns_no_result_code :
    stubResultCode UnimplementedEntry.vkDestroySwapchainKHR
      ≠ some VK_ERROR_OUT_OF_HOST_MEMORY := by
  decide

/-- C9 amended: every entry of the driver's function table is present
(non-null); each of the eight unimplemented entries with a `VkResult` return
type returns `VK_ERROR_OUT_OF_HOST_MEMORY` for every input; the ninth
unimplemented entry, `vkDestroySwapchainKHR`, is also present but has return
type `void`, performing nothing and returning no result code. -/
theorem vulkan_funcs_table_complete (a b c d e f : Nat) :
    vulkan_funcs.p_vkAcquireNextImageKHR.isSome = true ∧
    vulkan_funcs.p_vkCreateInstance.isSome = true ∧
    vulkan_funcs.p_vkCreateSwapchainKHR.isSome = true ∧
    vulkan_funcs.p_vkCreateWin32SurfaceKHR.isSome = true ∧
    vulkan_funcs.p_vkDestroyInstance.isSome = true ∧
    vulkan_funcs.p_vkDestroySurfaceKHR.isSome = true ∧
    vulkan_funcs.p_vkDestroySwapchainKHR.isSome = true ∧
    vulkan_funcs.p_vkEnumerateInstanceExtensionProperties.isSome = true ∧
    vulkan_funcs.p_vkGetDeviceProcAddr.isSome = true ∧
    vulkan_funcs.p_vkGetInstanceProcAddr.isSome = true ∧
    vulkan_funcs.p_vkGetPhysicalDeviceSurfaceCapabilitiesKHR.isSome = true ∧
    vulkan_funcs.p_vkGetPhysicalDeviceSurfaceFormatsKHR.isSome = true ∧
    vulkan_funcs.p_vkGetPhysicalDeviceSurfacePresentModesKHR.isSome = true ∧
    vulkan_funcs.p_vkGetPhysicalDeviceSurfaceSupportKHR.isSome = true ∧
    vulkan_funcs.p_vkGetPhysicalDeviceWin32PresentationSupportKHR.isSome = true ∧
    vulkan_funcs.p_vkGetSwapchainImagesKHR.isSome = true ∧
    vulkan_funcs.p_vkQueuePresentKHR.isSome = true ∧
    X11DRV_vkAcquireNextImageKHR a b c d e f = VK_ERROR_OUT_OF_HOST_MEMORY ∧
    X11DRV_vkCreateSwapchainKHR a b c d = VK_ERROR_OUT_OF_HOST_MEMORY ∧
    X11DRV_vkGetPhysicalDeviceSurfaceCapabilitiesKHR a b c
      = VK_ERROR_OUT_OF_HOST_MEMORY ∧
    X11DRV_vkGetPhysicalDeviceSurfaceFormatsKHR a b c d
      = VK_ERROR_OUT_OF_HOST_MEMORY ∧
    X11DRV_vkGetPhysicalDeviceSurfacePresentModesKHR a b c d
      = VK_ERROR_OUT_OF_HOST_MEMORY ∧
    X11DRV_vkGetPhysicalDeviceSurfaceSupportKHR a b c d
      = VK_ERROR_OUT_OF_HOST_MEMORY ∧
    X11DRV_vkGetSwapchainImagesKHR a b c d = VK_ERROR_OUT_OF_HOST_MEMORY ∧
    X11DRV_vkQueuePresentKHR a b = VK_ERROR_OUT_OF_HOST_MEMORY ∧
    X11DRV_vkDestroySwapchainKHR a b c = () ∧
    stubResultCode UnimplementedEntry.vkDestroySwapchainKHR = none ∧
    (∀ entry : UnimplementedEntry,
      entry ≠ UnimplementedEntry.vkDestroySwapchainKHR →
      stubResultCode entry = some VK_ERROR_OUT_OF_HOST_MEMORY) := by
  refine ⟨rfl, rfl, rfl, rfl, rfl, rfl, rfl, rfl, rfl, rfl, rfl, rfl, rfl,
    rfl, rfl, rfl, rfl, rfl, rfl, rfl, rfl, rfl, rfl, rfl, rfl, rfl, rfl, ?_⟩
  intro entry hne
  cases entry <;> first
    | rfl
    | exact absurd rfl hne

/-- A call environment in which everything up to the backend call succeeds
and the backend surface creation fails with `VK_ERROR_SURFACE_LOST_KHR`. -/
def surfaceBackendFailEnv : SurfaceEnv :=
  { ancestorParent := 10, desktopWindow := 10, clientWindow := some 77,
    allocOk := true, backendResult := VK_ERROR_SURFACE_LOST_KHR,
    backendSurface := 0 }

/-- C10 failing input: when the backend Xlib surface creation fails, the
function does propagate the backend's exact result code and leaves the
caller's output handle unwritten, but the `heap_free(surface)` on the error
path frees the caller's output-parameter pointer, not the `wine_vk_surface`
it allocated: the allocated record is never freed (a leak). -/
theorem createWin32Surface_backend_failure_leak :
    (X11DRV_vkCreateWin32SurfaceKHR surfaceBackendFailEnv).res
      = VK_ERROR_SURFACE_LOST_KHR ∧
    (X11DRV_vkCreateWin32SurfaceKHR surfaceBackendFailEnv).surfaceOut = none ∧
    (X11DRV_vkCreateWin32SurfaceKHR surfaceBackendFailEnv).allocated
      = [HeapPtr.x11SurfacePtr] ∧
    (X11DRV_vkCreateWin32SurfaceKHR surfaceBackendFailEnv).freed
      = [HeapPtr.surfaceParamPtr] ∧
    HeapPtr.x11SurfacePtr ∉
      (X11DRV_vkCreateWin32SurfaceKHR surfaceBackendFailEnv).freed := by
  decide
